import Mathlib

/-!
Shallow embedding of the Build and Ship VS Code extension (bhartiyashesh/buildandship-vscode),
centred on the deploy lifecycle coordinator:

- `src/src/cli.ts`: the CLI bridge (`execJSON`, `isLoggedIn`, the typed records for
  `bs list --json` and `bs status --json`);
- `src/unnamed/part_000`, second file (the deploy command with the deploy watcher):
  `startDeployWatcher`, `stopDeployWatcher`, the poll tick handler, and `deploy`.

The external `bs` binary and the JavaScript `JSON.parse` are external collaborators; they are
modelled as oracle functions supplied as parameters, and the results of the two watcher
queries (`listProjects`, `statusAll`) are supplied per tick as a trace of poll inputs, with
`none` standing for a rejected query. JavaScript string truthiness (the empty string and
`undefined` are falsy) is modelled explicitly; optional strings are collapsed to the empty
string where the source only feeds them into `||` chains that end in `|| ""`, which is
observationally identical there.
-/

namespace BuildAndShip

/-- Record for one element of the `bs list --json` array (interface `ListProject`, cli.ts). -/
structure AutoDeploy where
  repo : String
  branch : String
deriving Repr, DecidableEq

structure ListProject where
  name : String
  status : String
  public_url : Option String
  tunnel_active : Bool
  auto_deploy : Option AutoDeploy
deriving Repr, DecidableEq

/-- Record for one element of `bs status --json` (interface `StatusProject`, cli.ts). -/
structure StatusProject where
  name : String
  framework : Option String
  status : String
  url : Option String
  local_url : Option String
  cpu : Option String
  memory : Option String
  uptime : Option String
deriving Repr, DecidableEq

/-- Result shape of `bs status --json` (interface `StatusAll`, cli.ts). -/
structure StatusAll where
  projects : List StatusProject
deriving Repr, DecidableEq

/-- Pre-deploy snapshot entry (interface `ProjectSnapshot` in part_000). -/
structure ProjectSnapshot where
  status : String
  url : String
deriving Repr, DecidableEq

/-- JavaScript `a || b` on strings where the empty string is falsy.  Every use in the
watcher is a chain ending in `|| ""`, so optional operands are collapsed to `""` first. -/
def jsOr (a b : String) : String := if a = "" then b else a

/-- JavaScript `s?.status` for an optional status record, collapsed to `""` when absent. -/
def statusOf : Option StatusProject → String
  | some s => s.status
  | none => ""

/-- JavaScript `s?.url` for an optional status record, collapsed to `""` when absent. -/
def urlOf : Option StatusProject → String
  | some s => s.url.getD ""
  | none => ""

/-- JavaScript `p.public_url` with `undefined` collapsed to `""`. -/
def listUrl (p : ListProject) : String := p.public_url.getD ""

/-- The merged current status of a project: `p.status || s?.status || ""` (part_000). -/
def currentStatus (p : ListProject) (s : Option StatusProject) : String :=
  jsOr p.status (statusOf s)

/-- The merged current URL of a project: `p.public_url || s?.url || ""` (part_000). -/
def currentUrl (p : ListProject) (s : Option StatusProject) : String :=
  jsOr (listUrl p) (urlOf s)

/-- Lookup in `new Map(status.projects.map((s) => [s.name, s]))`.  The Map constructor lets
a later pair with the same key overwrite an earlier one, so the fold keeps the last match. -/
def statusLookup (sps : List StatusProject) (n : String) : Option StatusProject :=
  sps.foldl (fun acc s => if s.name = n then some s else acc) none

/-- The snapshot Map of part_000, as its insertion sequence.  `snapshot.set` overwrites, so
lookups keep the last inserted entry for a name. -/
abbrev Snapshot := List (String × ProjectSnapshot)

/-- One `snapshot.set(p.name, \x7b status: ..., url: ... \x7d)` entry of the snapshot phase
or one merged record of the poll phase; both use the identical merge expressions. -/
def mkSnapshotEntry (s : Option StatusProject) (p : ListProject) : ProjectSnapshot :=
  { status := currentStatus p s, url := currentUrl p s }

/-- Snapshot construction loop of `startDeployWatcher` (part_000, snapshot phase). -/
def buildSnapshot (projects : List ListProject) (status : StatusAll) : Snapshot :=
  projects.map fun p => (p.name, mkSnapshotEntry (statusLookup status.projects p.name) p)

/-- JavaScript `snapshot.get(name)`: the last entry inserted for that name, if any. -/
def snapshotGet (snap : Snapshot) (n : String) : Option ProjectSnapshot :=
  snap.foldl (fun acc e => if e.1 = n then some e.2 else acc) none

/-- The snapshot phase with its query fallbacks: `listProjects().catch(() => [])` and
`statusAll().catch(() => (\x7b projects: [] \x7d))`, a `none` input standing for a
rejected query. -/
def snapshotPhase (projects : Option (List ListProject)) (status : Option StatusAll) :
    Snapshot :=
  buildSnapshot (projects.getD []) (status.getD { projects := [] })

/-- Last project in the list carrying a given name, mirroring last-wins Map insertion. -/
def lastByName (projects : List ListProject) (n : String) : Option ListProject :=
  projects.foldl (fun acc q => if q.name = n then some q else acc) none

/-- Terminal event delivered to the registered subscribers: `_onDeploySuccess(p.name,
currentUrl)` or `_onDeployFailure()`. -/
inductive DeployEvent where
  | success (projectName publicUrl : String)
  | failure
deriving Repr, DecidableEq

/-- The local `wasNotLive` of the tick handler: `!prev || prev.status !== "live"`. -/
def wasNotLive : Option ProjectSnapshot → Bool
  | none => true
  | some q => q.status != "live"

/-- The local `urlChanged` of the tick handler: `prev?.url !== currentUrl` (when `prev` is
absent, `undefined !== currentUrl` is true). -/
def urlChanged (prev : Option ProjectSnapshot) (cu : String) : Bool :=
  match prev with
  | none => true
  | some q => q.url != cu

/-- Guard of the success branch of the tick handler (part_000, lines 277 to 282). -/
def successFires (prev : Option ProjectSnapshot) (cs cu : String) : Bool :=
  (cs == "live") && (cu != "") && (wasNotLive prev || urlChanged prev cu)

/-- Guard of the failure branch of the tick handler (part_000, line 295):
`currentStatus === "failed" && prev && prev.status !== "failed"`. -/
def failureFires (prev : Option ProjectSnapshot) (cs : String) : Bool :=
  (cs == "failed") && (match prev with | some q => q.status != "failed" | none => false)

/-- The body of the per-project loop of one poll tick.  The source nests the success guard
(the inner `wasNotLive || urlChanged` test sits inside the `currentStatus === "live" &&
currentUrl` test and falls through to the failure test when it fails); since a status string
cannot be both "live" and "failed", the flattened two-guard form used here takes the same
branch on every input. -/
def projectEvent (snap : Snapshot) (statusProjects : List StatusProject) (p : ListProject) :
    Option DeployEvent :=
  let s := statusLookup statusProjects p.name
  let cs := currentStatus p s
  let cu := currentUrl p s
  let prev := snapshotGet snap p.name
  if successFires prev cs cu then some (DeployEvent.success p.name cu)
  else if failureFires prev cs then some DeployEvent.failure
  else none

/-- The `for (const p of projects)` loop of one poll tick: the first project whose guard
fires produces the single event of the tick (the handler returns immediately). -/
def scanProjects (snap : Snapshot) (statusProjects : List StatusProject) :
    List ListProject → Option DeployEvent
  | [] => none
  | p :: rest =>
    match projectEvent snap statusProjects p with
    | some ev => some ev
    | none => scanProjects snap statusProjects rest

/-- Tick ceiling of the watcher: `const maxTicks = 600` (10 minutes at 1 second). -/
def maxTicks : Nat := 600

/-- Mutable state of one watcher session: the captured snapshot, the `tickCount` counter,
the `alreadyFired` flag, and whether `deployWatcherInterval` is still registered (set to
false by `stopDeployWatcher`, after which the handler is never invoked again). -/
structure WatcherState where
  snapshot : Snapshot
  tickCount : Nat
  alreadyFired : Bool
  intervalActive : Bool
deriving Repr, DecidableEq

/-- The two query results delivered to one tick; `none` stands for a rejected query and is
replaced by the `.catch` fallbacks exactly as in the source. -/
abbrev PollInput := Option (List ListProject) × Option StatusAll

/-- One invocation slot of the interval handler in the serialized regime, where each tick
resolves its queries before the next handler invocation: the synchronous guard prefix
(tick counting, ceiling and fired check, clearInterval) and the post-await scan then form
one step.  Returns the new state, the event fired by this tick (if any), and whether this
tick issued its pair of CLI queries.  When the interval has been cleared the handler does
not run.  The overlapping regime, in which the async handler suspends at its query await
and other invocations run in between, is modelled separately by `asyncTick` and
`asyncResume` below; the ceiling and issuance behaviour proved here depends only on the
synchronous prefix and is the same in both regimes. -/
def watcherTick (st : WatcherState) (inp : PollInput) :
    WatcherState × Option DeployEvent × Bool :=
  if st.intervalActive = false then (st, none, false)
  else if maxTicks < st.tickCount + 1 ∨ st.alreadyFired = true then
    ({ st with tickCount := st.tickCount + 1, intervalActive := false }, none, false)
  else
    match scanProjects st.snapshot ((inp.2).getD { projects := [] }).projects
        ((inp.1).getD []) with
    | some ev =>
      ({ st with
          tickCount := st.tickCount + 1
          alreadyFired := true
          intervalActive := false },
        some ev, true)
    | none => ({ st with tickCount := st.tickCount + 1 }, none, true)

/-- A whole watcher session run over a trace of per-tick query results in the serialized
regime (each handler invocation completes before the next): final state, the events
delivered to subscribers in order, and the per-tick flags recording which ticks issued
queries.  Interleaved handler invocations are run by `runAsyncWatcher` below. -/
def runWatcher : WatcherState → List PollInput → WatcherState × List DeployEvent × List Bool
  | st, [] => (st, [], [])
  | st, inp :: rest =>
    let r := watcherTick st inp
    let rr := runWatcher r.1 rest
    (rr.1, r.2.1.toList ++ rr.2.1, r.2.2 :: rr.2.2)

/-- State of a watcher session right after the snapshot phase: `tickCount = 0`,
`alreadyFired = false`, and the fresh interval registered. -/
def initWatcher (snap : Snapshot) : WatcherState :=
  { snapshot := snap, tickCount := 0, alreadyFired := false, intervalActive := true }

/-- Number of true flags, that is, of ticks that issued their CLI queries. -/
def countTrue : List Bool → Nat
  | [] => 0
  | b :: rest => (if b then 1 else 0) + countTrue rest

/-- A poll input whose queries succeed but report no projects at all. -/
def emptyPoll : PollInput := (some [], some { projects := [] })

/-- Number of query sets still outstanding at second `t`, given the per-tick issue flags
(tick `i` runs at second `i` and its queries resolve at second `i + d`). -/
def outstandingAux (d t : Nat) : List Bool → Nat → Nat
  | [], _ => 0
  | b :: rest, i =>
    (if b = true ∧ i ≤ t ∧ t < i + d then 1 else 0) + outstandingAux d t rest (i + 1)

def outstandingAt (flags : List Bool) (d t : Nat) : Nat := outstandingAux d t flags 1

/-! Watcher session under overlapping ticks.  The interval handler of part_000 is an async
closure: its synchronous prefix counts the tick, checks `tickCount > maxTicks ||
alreadyFired` (calling `stopDeployWatcher` and returning when it trips) and issues the two
CLI queries; it then suspends at `await Promise.all`.  The resumed suffix scans the results
and fires, with no second look at `alreadyFired`.  When a query set takes longer than the
one second interval, further handler invocations run between a prefix and its suffix, so
prefixes and suffixes interleave; the scheduler below replays any such interleaving. -/

structure AsyncWatcherState where
  snapshot : Snapshot
  tickCount : Nat
  alreadyFired : Bool
  intervalActive : Bool
  pending : List PollInput
  events : List DeployEvent
deriving Repr, DecidableEq

/-- Synchronous prefix of one handler invocation: count the tick, stop on the ceiling or
on the fired flag, otherwise issue the query set, whose eventual result `inp` joins the
pending resumes. -/
def asyncTick (st : AsyncWatcherState) (inp : PollInput) : AsyncWatcherState :=
  if st.intervalActive = false then st
  else if maxTicks < st.tickCount + 1 ∨ st.alreadyFired = true then
    { st with tickCount := st.tickCount + 1, intervalActive := false }
  else
    { st with tickCount := st.tickCount + 1, pending := st.pending ++ [inp] }

/-- Resumed suffix of the handler invocation whose query set sits at position `k` of the
pending list: scan the results against the snapshot and, on the first match, set
`alreadyFired`, clear the interval and deliver the event.  The source performs no
`alreadyFired` re-check at this point. -/
def asyncResume (st : AsyncWatcherState) (k : Nat) : AsyncWatcherState :=
  match st.pending[k]? with
  | none => st
  | some inp =>
    match scanProjects st.snapshot ((inp.2).getD { projects := [] }).projects
        ((inp.1).getD []) with
    | some ev =>
      { st with
          pending := st.pending.eraseIdx k
          alreadyFired := true
          intervalActive := false
          events := st.events ++ [ev] }
    | none => { st with pending := st.pending.eraseIdx k }

/-- Scheduler events of one watcher session under overlapping ticks: a handler invocation
(with the result its queries will deliver) or the resumption of the pending invocation at
position `k`. -/
inductive AsyncWatcherStep where
  | tick (inp : PollInput)
  | resume (k : Nat)
deriving Repr, DecidableEq

def asyncWatcherApply (st : AsyncWatcherState) : AsyncWatcherStep → AsyncWatcherState
  | AsyncWatcherStep.tick inp => asyncTick st inp
  | AsyncWatcherStep.resume k => asyncResume st k

/-- A watcher session replayed under an arbitrary interleaving of handler prefixes and
resumptions. -/
def runAsyncWatcher (st : AsyncWatcherState) (steps : List AsyncWatcherStep) :
    AsyncWatcherState :=
  steps.foldl asyncWatcherApply st

def initAsyncWatcher (snap : Snapshot) : AsyncWatcherState :=
  { snapshot := snap, tickCount := 0, alreadyFired := false, intervalActive := true,
    pending := [], events := [] }

/-- A poll result reporting the single project app live at a public URL. -/
def appLivePoll : PollInput :=
  (some [{ name := "app", status := "live", public_url := some "https://x.dev",
           tunnel_active := true, auto_deploy := none }],
   some { projects := [] })

/-! Session bookkeeping of the deploy command (part_000, deploy watcher iteration).
Terminals and interval timers are modelled by numeric handles; `liveIntervals` and
`liveTerminals` are the registries of handles the host still considers alive, while
`watcherVar` and `activeTerminal` model the module variables `deployWatcherInterval` and
`activeDeployTerminal`.  Only deploy terminals are modelled: every other command opens
terminals that the deploy session code never touches. -/

inductive CliError where
  | processError (msg : String)
  | parseError (msg : String)
deriving Repr, DecidableEq

/-- Function `execJSON` (cli.ts, lines 123 to 131): run `exec([...args, "--json"])`, then
parse the output, converting a parse failure into the dedicated error that names the failed
command. -/
def execJSON {J : Type} (runCli : List String → Except String String)
    (parse : String → Option J) (args : List String) : Except CliError J :=
  match runCli (args ++ ["--json"]) with
  | Except.error m => Except.error (CliError.processError m)
  | Except.ok out =>
    match parse out with
    | some v => Except.ok v
    | none =>
      Except.error (CliError.parseError
        ("Failed to parse JSON from: bs " ++ String.intercalate " " args ++ " --json"))

/-- JavaScript `hay.includes(pat)` helper: does `pat` occur at the start of `hay`? -/
def charsPrefix : List Char → List Char → Bool
  | [], _ => true
  | _ :: _, [] => false
  | c :: cs, d :: ds => (c == d) && charsPrefix cs ds

/-- JavaScript `hay.includes(pat)` over character lists. -/
def charsContain (pat : List Char) : List Char → Bool
  | [] => charsPrefix pat []
  | c :: rest => charsPrefix pat (c :: rest) || charsContain pat rest

/-- JavaScript `String.prototype.includes`. -/
def strContains (hay pat : String) : Bool := charsContain pat.data hay.data

/-- Function `isLoggedIn` (cli.ts, lines 153 to 165), applied to the settled result of
`execAll(["whoami"])`: a rejected invocation yields false, otherwise the combined
stdout and stderr text is tested by substring. -/
def isLoggedIn (result : Except String String) : Bool :=
  match result with
  | Except.error _ => false
  | Except.ok out =>
    if strContains out "Not logged in" then false
    else strContains out "Email" || strContains out "Name" || strContains out "User ID"

/-! Helper lemmas. -/

theorem successFires_iff (prev : Option ProjectSnapshot) (cs cu : String) :
    successFires prev cs cu = true ↔
      cs = "live" ∧ cu ≠ "" ∧
        (Option.map ProjectSnapshot.status prev ≠ some "live" ∨
         Option.map ProjectSnapshot.url prev ≠ some cu) := by
  cases prev <;> simp [successFires, wasNotLive, urlChanged, and_assoc]

theorem failureFires_iff (prev : Option ProjectSnapshot) (cs : String) :
    failureFires prev cs = true ↔
      cs = "failed" ∧ ∃ q, prev = some q ∧ q.status ≠ "failed" := by
  cases prev <;> simp [failureFires]

theorem successFires_failed (prev : Option ProjectSnapshot) (cu : String) :
    successFires prev "failed" cu = false := by
  simp [successFires]

theorem projectEvent_success_iff (snap : Snapshot) (sps : List StatusProject)
    (p : ListProject) :
    (∃ u, projectEvent snap sps p = some (DeployEvent.success p.name u)) ↔
      successFires (snapshotGet snap p.name) (currentStatus p (statusLookup sps p.name))
        (currentUrl p (statusLookup sps p.name)) = true := by
  by_cases h : successFires (snapshotGet snap p.name)
      (currentStatus p (statusLookup sps p.name))
      (currentUrl p (statusLookup sps p.name)) = true
  · simp [projectEvent, h]
  · cases hf : failureFires (snapshotGet snap p.name)
        (currentStatus p (statusLookup sps p.name)) <;>
      simp [projectEvent, h, hf]

theorem projectEvent_failure_iff (snap : Snapshot) (sps : List StatusProject)
    (p : ListProject) :
    projectEvent snap sps p = some DeployEvent.failure ↔
      (successFires (snapshotGet snap p.name) (currentStatus p (statusLookup sps p.name))
          (currentUrl p (statusLookup sps p.name)) = false ∧
       failureFires (snapshotGet snap p.name)
          (currentStatus p (statusLookup sps p.name)) = true) := by
  by_cases h : successFires (snapshotGet snap p.name)
      (currentStatus p (statusLookup sps p.name))
      (currentUrl p (statusLookup sps p.name)) = true
  · simp [projectEvent, h]
  · cases hf : failureFires (snapshotGet snap p.name)
        (currentStatus p (statusLookup sps p.name)) <;>
      simp_all [projectEvent, h, hf]

/-! Claim theorems. -/

/-- C1.  On every poll tick and for every project in the polled list, the success branch
fires for that project exactly when its merged current status is "live", its merged current
URL is non-empty, and the project was not "live" in the pre-deploy snapshot or its current
URL differs from the snapshot URL; in particular a project that was already "live" in the
snapshot with the same URL never produces a success event. -/
theorem success_rule_exact (snap : Snapshot) (sps : List StatusProject) (p : ListProject) :
    ((∃ u, projectEvent snap sps p = some (DeployEvent.success p.name u)) ↔
      (currentStatus p (statusLookup sps p.name) = "live" ∧
       currentUrl p (statusLookup sps p.name) ≠ "" ∧
       (Option.map ProjectSnapshot.status (snapshotGet snap p.name) ≠ some "live" ∨
        Option.map ProjectSnapshot.url (snapshotGet snap p.name) ≠
          some (currentUrl p (statusLookup sps p.name)))))
    ∧ (∀ q, snapshotGet snap p.name = some q → q.status = "live" →
        q.url = currentUrl p (statusLookup sps p.name) →
        ∀ u, projectEvent snap sps p ≠ some (DeployEvent.success p.name u)) := by
  constructor
  · rw [projectEvent_success_iff]
    exact successFires_iff _ _ _
  · intro q hq hlive hurl u hfired
    have h := (projectEvent_success_iff snap sps p).mp ⟨u, hfired⟩
    rcases (successFires_iff _ _ _).mp h with ⟨-, -, hdisj | hdisj⟩ <;>
      simp [hq, hlive, hurl] at hdisj

/-- C1 witness: a project already "live" in the snapshot with the same URL fires nothing. -/
theorem success_rule_exact_witness :
    projectEvent [("app", { status := "live", url := "https://x.dev" })] []
        { name := "app", status := "live", public_url := some "https://x.dev",
          tunnel_active := true, auto_deploy := none } ≠
      some (DeployEvent.success "app" "https://x.dev") :=
  (success_rule_exact [("app", { status := "live", url := "https://x.dev" })] []
      { name := "app", status := "live", public_url := some "https://x.dev",
        tunnel_active := true, auto_deploy := none }).2
    { status := "live", url := "https://x.dev" } rfl rfl rfl "https://x.dev"

/-- C2.  On every poll tick and for every project in the polled list, the failure branch
fires for that project exactly when its merged current status is "failed" and the snapshot
holds an entry for it whose status is anything other than "failed"; an already failed
project re-observed as "failed" never produces a failure event. -/
theorem failure_rule_transition (snap : Snapshot) (sps : List StatusProject)
    (p : ListProject) :
    (projectEvent snap sps p = some DeployEvent.failure ↔
      (currentStatus p (statusLookup sps p.name) = "failed" ∧
       ∃ q, snapshotGet snap p.name = some q ∧ q.status ≠ "failed"))
    ∧ (∀ q, snapshotGet snap p.name = some q → q.status = "failed" →
        projectEvent snap sps p ≠ some DeployEvent.failure) := by
  have hiff : projectEvent snap sps p = some DeployEvent.failure ↔
      (currentStatus p (statusLookup sps p.name) = "failed" ∧
       ∃ q, snapshotGet snap p.name = some q ∧ q.status ≠ "failed") := by
    rw [projectEvent_failure_iff]
    constructor
    · rintro ⟨-, hf⟩
      exact (failureFires_iff _ _).mp hf
    · intro h
      refine ⟨?_, (failureFires_iff _ _).mpr h⟩
      rw [h.1]
      exact successFires_failed _ _
  refine ⟨hiff, ?_⟩
  intro q hq hfailed hfired
  rcases (hiff.mp hfired).2 with ⟨q2, hq2, hne⟩
  rw [hq] at hq2
  cases hq2
  exact hne hfailed

/-- C2 witness: an already failed project re-observed as "failed" fires no event. -/
theorem failure_rule_transition_witness :
    projectEvent [("app", { status := "failed", url := "" })] []
        { name := "app", status := "failed", public_url := none,
          tunnel_active := true, auto_deploy := none } ≠
      some DeployEvent.failure :=
  (failure_rule_transition [("app", { status := "failed", url := "" })] []
      { name := "app", status := "failed", public_url := none,
        tunnel_active := true, auto_deploy := none }).2
    { status := "failed", url := "" } rfl rfl

theorem watcherTick_cases (st : WatcherState) (inp : PollInput) :
    (watcherTick st inp).2.1 = none ∨ (watcherTick st inp).1.intervalActive = false := by
  unfold watcherTick
  split
  · left; rfl
  · split
    · left; rfl
    · split
      · right; rfl
      · left; rfl

theorem watcherTick_snapshot (st : WatcherState) (inp : PollInput) :
    (watcherTick st inp).1.snapshot = st.snapshot := by
  unfold watcherTick
  split
  · rfl
  · split
    · rfl
    · split
      · rfl
      · rfl

theorem runWatcher_inactive (st : WatcherState) (trace : List PollInput)
    (h : st.intervalActive = false) :
    runWatcher st trace = (st, [], List.replicate trace.length false) := by
  induction trace with
  | nil => rfl
  | cons inp rest ih =>
    have ht : watcherTick st inp = (st, none, false) := by
      unfold watcherTick
      rw [if_pos h]
    simp [runWatcher, ht, ih, List.replicate_succ]

theorem watcherTick_go_none (st : WatcherState) (inp : PollInput)
    (hact : st.intervalActive = true) (hfired : st.alreadyFired = false)
    (hceil : st.tickCount + 1 ≤ maxTicks)
    (hscan : scanProjects st.snapshot ((inp.2).getD { projects := [] }).projects
      ((inp.1).getD []) = none) :
    watcherTick st inp = ({ st with tickCount := st.tickCount + 1 }, none, true) := by
  have h1 : ¬ (maxTicks < st.tickCount + 1) := by omega
  simp [watcherTick, hact, hfired, h1, hscan]

theorem watcherTick_ceiling (st : WatcherState) (inp : PollInput)
    (hact : st.intervalActive = true) (hceil : maxTicks < st.tickCount + 1) :
    watcherTick st inp =
      ({ st with tickCount := st.tickCount + 1, intervalActive := false }, none, false) := by
  simp [watcherTick, hact, hceil]

theorem countTrue_replicate_false (n : Nat) : countTrue (List.replicate n false) = 0 := by
  induction n with
  | zero => rfl
  | succ n ih => simp [List.replicate_succ, countTrue, ih]

theorem runWatcher_nomatch (snap : Snapshot) (trace : List PollInput) :
    ∀ k : Nat,
      (∀ inp ∈ trace,
        scanProjects snap ((inp.2).getD { projects := [] }).projects
          ((inp.1).getD []) = none) →
      (runWatcher ⟨snap, k, false, true⟩ trace).2.1 = [] ∧
      countTrue (runWatcher ⟨snap, k, false, true⟩ trace).2.2 =
        min trace.length (maxTicks - k) ∧
      (maxTicks - k < trace.length →
        (runWatcher ⟨snap, k, false, true⟩ trace).1.intervalActive = false) := by
  induction trace with
  | nil =>
    intro k h
    refine ⟨rfl, by simp [runWatcher, countTrue], ?_⟩
    intro h2
    simp only [List.length_nil] at h2
    exact absurd h2 (by omega)
  | cons inp rest ih =>
    intro k h
    have hhead := h inp (List.mem_cons_self inp rest)
    have htail : ∀ inp2 ∈ rest,
        scanProjects snap ((inp2.2).getD { projects := [] }).projects
          ((inp2.1).getD []) = none :=
      fun i hi => h i (List.mem_cons_of_mem _ hi)
    have hdec : runWatcher ⟨snap, k, false, true⟩ (inp :: rest) =
        ((runWatcher (watcherTick ⟨snap, k, false, true⟩ inp).1 rest).1,
         (watcherTick ⟨snap, k, false, true⟩ inp).2.1.toList ++
           (runWatcher (watcherTick ⟨snap, k, false, true⟩ inp).1 rest).2.1,
         (watcherTick ⟨snap, k, false, true⟩ inp).2.2 ::
           (runWatcher (watcherTick ⟨snap, k, false, true⟩ inp).1 rest).2.2) := rfl
    by_cases hk : k + 1 ≤ maxTicks
    · have ht : watcherTick ⟨snap, k, false, true⟩ inp =
          (⟨snap, k + 1, false, true⟩, none, true) :=
        watcherTick_go_none ⟨snap, k, false, true⟩ inp rfl rfl hk hhead
      rw [hdec, ht]
      obtain ⟨ih1, ih2, ih3⟩ := ih (k + 1) htail
      refine ⟨by simpa using ih1, ?_, ?_⟩
      · simp [countTrue, ih2]
        omega
      · intro hlen
        simp only [List.length_cons] at hlen
        exact ih3 (by omega)
    · have ht : watcherTick ⟨snap, k, false, true⟩ inp =
          (⟨snap, k + 1, false, false⟩, none, false) :=
        watcherTick_ceiling ⟨snap, k, false, true⟩ inp rfl
          (by show maxTicks < k + 1; omega)
      rw [hdec, ht]
      rw [runWatcher_inactive ⟨snap, k + 1, false, false⟩ rest rfl]
      refine ⟨rfl, ?_, fun _ => rfl⟩
      simp [countTrue, countTrue_replicate_false]
      omega

/-- C3.  The claim that at most one terminal event is ever delivered per session is right
as a specification but violated by the code: the `alreadyFired` guard runs only in the
synchronous prefix of the async interval handler, before the query await, and is never
re-checked before firing on resume.  On the schedule below, tick 1 and tick 2 both pass
the guard while the first query set is still in flight (latency above the one second
interval), both query sets then report the project live, and the subscriber receives two
success events in one session. -/
theorem watcher_double_fire :
    (runAsyncWatcher (initAsyncWatcher [])
        [AsyncWatcherStep.tick appLivePoll, AsyncWatcherStep.tick appLivePoll,
         AsyncWatcherStep.resume 0, AsyncWatcherStep.resume 0]).events =
      [DeployEvent.success "app" "https://x.dev",
       DeployEvent.success "app" "https://x.dev"] ∧
    ¬ ((runAsyncWatcher (initAsyncWatcher [])
        [AsyncWatcherStep.tick appLivePoll, AsyncWatcherStep.tick appLivePoll,
         AsyncWatcherStep.resume 0, AsyncWatcherStep.resume 0]).events.length ≤ 1) :=
  ⟨rfl, by decide⟩

/-- C5.  A session in which no tick ever matches the success or failure rules delivers no
event at all, issues its queries on exactly `min trace.length 600` ticks (so polling stops
after the 600 tick ceiling), and once the trace outlives the ceiling the interval has been
cleared. -/
theorem tick_ceiling_silent (snap : Snapshot) (trace : List PollInput)
    (h : ∀ inp ∈ trace,
      scanProjects snap ((inp.2).getD { projects := [] }).projects
        ((inp.1).getD []) = none) :
    (runWatcher (initWatcher snap) trace).2.1 = [] ∧
    countTrue (runWatcher (initWatcher snap) trace).2.2 = min trace.length maxTicks ∧
    (maxTicks < trace.length →
      (runWatcher (initWatcher snap) trace).1.intervalActive = false) := by
  have hrun := runWatcher_nomatch snap trace 0 h
  simpa [initWatcher] using hrun

/-- C5 witness at a one-tick trace reporting no projects. -/
theorem tick_ceiling_silent_witness :
    (runWatcher (initWatcher []) [emptyPoll]).2.1 = [] ∧
    countTrue (runWatcher (initWatcher []) [emptyPoll]).2.2 =
      min ([emptyPoll] : List PollInput).length maxTicks ∧
    (maxTicks < ([emptyPoll] : List PollInput).length →
      (runWatcher (initWatcher []) [emptyPoll]).1.intervalActive = false) :=
  tick_ceiling_silent [] [emptyPoll] (by
    intro inp hi
    rw [List.mem_singleton] at hi
    subst hi
    rfl)

/-- C10.  The pre-deploy snapshot is never touched again: after any number of poll ticks,
including ticks that fire an event or hit the ceiling teardown, the snapshot carried by the
session state is exactly the snapshot captured at tick zero. -/
theorem snapshot_immutable (st : WatcherState) (trace : List PollInput) :
    (runWatcher st trace).1.snapshot = st.snapshot := by
  induction trace generalizing st with
  | nil => rfl
  | cons inp rest ih =>
    have hdec : (runWatcher st (inp :: rest)).1 =
        (runWatcher (watcherTick st inp).1 rest).1 := rfl
    rw [hdec, ih, watcherTick_snapshot]

theorem watcherTick_issued (st : WatcherState) (inp : PollInput) :
    (watcherTick st inp).2.2 =
      (st.intervalActive && !st.alreadyFired && decide (st.tickCount + 1 ≤ maxTicks)) := by
  by_cases h1 : st.intervalActive = false
  · simp [watcherTick, h1]
  · have h1t : st.intervalActive = true := by
      revert h1; cases st.intervalActive <;> simp
    by_cases h2 : maxTicks < st.tickCount + 1 ∨ st.alreadyFired = true
    · have ht : watcherTick st inp =
          ({ st with tickCount := st.tickCount + 1, intervalActive := false },
            none, false) := by
        unfold watcherTick
        rw [if_neg h1, if_pos h2]
      rw [ht]
      rcases h2 with h2 | h2
      · have hnle : ¬ (st.tickCount + 1 ≤ maxTicks) := by omega
        simp [h1t, hnle]
      · simp [h1t, h2]
    · push_neg at h2
      obtain ⟨hceil, hfired⟩ := h2
      have hf : st.alreadyFired = false := by
        revert hfired; cases st.alreadyFired <;> simp
      have hle : st.tickCount + 1 ≤ maxTicks := by omega
      have hguard : ¬ (maxTicks < st.tickCount + 1 ∨ st.alreadyFired = true) := by
        rw [hf]; simp; omega
      cases hscan : scanProjects st.snapshot ((inp.2).getD { projects := [] }).projects
          ((inp.1).getD []) with
      | some ev =>
        have ht : (watcherTick st inp).2.2 = true := by
          unfold watcherTick
          rw [if_neg h1, if_neg hguard, hscan]
        rw [ht]
        simp [h1t, hf, hle]
      | none =>
        have ht : (watcherTick st inp).2.2 = true := by
          unfold watcherTick
          rw [if_neg h1, if_neg hguard, hscan]
        rw [ht]
        simp [h1t, hf, hle]

/-- C7 counterexample.  The poll loop has no in-flight guard: on a session whose first two
ticks match nothing, both ticks issue their own query set, so with a query latency of two
seconds the number of outstanding query sets at second two is two, not at most one. -/
theorem overlap_ticks_counterexample :
    outstandingAt (runWatcher (initWatcher []) [emptyPoll, emptyPoll]).2.2 2 2 = 2 ∧
    ¬ (outstandingAt (runWatcher (initWatcher []) [emptyPoll, emptyPoll]).2.2 2 2 ≤ 1) :=
  ⟨by rfl, by decide⟩

/-- C7 amended.  The tick handler decides whether to issue its queries from the interval
flag, the fired flag and the tick counter alone: the session state carries no record of
queries still in flight, so every tick under the ceiling of an unfired active session
issues a fresh query set, and whenever the query latency spans at least two tick slots the
first two ticks of a matchless session are outstanding together at second two. -/
theorem no_overlap_guard (st : WatcherState) (inp : PollInput) (d : Nat) (hd : 2 ≤ d) :
    ((watcherTick st inp).2.2 =
      (st.intervalActive && !st.alreadyFired && decide (st.tickCount + 1 ≤ maxTicks))) ∧
    outstandingAt (runWatcher (initWatcher []) [emptyPoll, emptyPoll]).2.2 d 2 = 2 := by
  refine ⟨watcherTick_issued st inp, ?_⟩
  have hflags : (runWatcher (initWatcher []) [emptyPoll, emptyPoll]).2.2 = [true, true] :=
    rfl
  rw [hflags]
  have h1 : 2 < 1 + d := by omega
  have h2 : 2 < 2 + d := by omega
  simp [outstandingAt, outstandingAux, h1, h2]

/-- C7 witness at latency two. -/
theorem no_overlap_guard_witness :
    ((watcherTick (initWatcher []) emptyPoll).2.2 =
      ((initWatcher []).intervalActive && !(initWatcher []).alreadyFired &&
        decide ((initWatcher []).tickCount + 1 ≤ maxTicks))) ∧
    outstandingAt (runWatcher (initWatcher []) [emptyPoll, emptyPoll]).2.2 2 2 = 2 :=
  no_overlap_guard (initWatcher []) emptyPoll 2 (by decide)

/-- C8.  The JSON query of the CLI bridge invokes the binary on exactly `args ++ ["--json"]`
(its result depends on the oracle only at that argument list), returns the parsed value on
valid JSON, rejects with the dedicated parse error naming the failed command on invalid
JSON, and propagates a process failure as a process error, so no other outcome exists. -/
theorem execJSON_contract {J : Type} (runCli : List String → Except String String)
    (parse : String → Option J) (args : List String) :
    (∀ out v, runCli (args ++ ["--json"]) = Except.ok out → parse out = some v →
      execJSON runCli parse args = Except.ok v) ∧
    (∀ out, runCli (args ++ ["--json"]) = Except.ok out → parse out = none →
      execJSON runCli parse args =
        Except.error (CliError.parseError
          ("Failed to parse JSON from: bs " ++ String.intercalate " " args ++ " --json"))) ∧
    (∀ runCli2 : List String → Except String String,
      runCli (args ++ ["--json"]) = runCli2 (args ++ ["--json"]) →
      execJSON runCli parse args = execJSON runCli2 parse args) ∧
    (∀ m, runCli (args ++ ["--json"]) = Except.error m →
      execJSON runCli parse args = Except.error (CliError.processError m)) := by
  refine ⟨?_, ?_, ?_, ?_⟩
  · intro out v hrun hparse
    simp [execJSON, hrun, hparse]
  · intro out hrun hparse
    simp [execJSON, hrun, hparse]
  · intro runCli2 heq
    simp [execJSON, heq]
  · intro m hrun
    simp [execJSON, hrun]

/-- C8 witness: a CLI that answers with non-JSON text makes the bridge reject with the
parse error naming the failed command. -/
theorem execJSON_contract_witness :
    execJSON (fun _ => Except.ok "not json") (fun _ => (none : Option Nat)) ["list"] =
      Except.error (CliError.parseError
        ("Failed to parse JSON from: bs " ++ String.intercalate " " ["list"] ++
          " --json")) :=
  (execJSON_contract (fun _ => Except.ok "not json") (fun _ => (none : Option Nat))
    ["list"]).2.1 "not json" rfl rfl

/-- C9.  The identity check returns false whenever the combined output contains
"Not logged in" (that test runs first), otherwise it returns true exactly when the output
contains one of the identity field labels, and a rejected CLI invocation yields false
rather than a rejection. -/
theorem isLoggedIn_heuristic (out e : String) :
    (strContains out "Not logged in" = true → isLoggedIn (Except.ok out) = false) ∧
    (strContains out "Not logged in" = false →
      isLoggedIn (Except.ok out) =
        (strContains out "Email" || strContains out "Name" || strContains out "User ID")) ∧
    isLoggedIn (Except.error e) = false := by
  refine ⟨?_, ?_, rfl⟩
  · intro h
    simp [isLoggedIn, h]
  · intro h
    simp [isLoggedIn, h]

/-- C9 witness on concrete outputs. -/
theorem isLoggedIn_heuristic_witness :
    isLoggedIn (Except.ok "Not logged in. Run bs login.") = false ∧
    isLoggedIn (Except.ok "Name: Ada Example") =
      (strContains "Name: Ada Example" "Email" || strContains "Name: Ada Example" "Name" ||
        strContains "Name: Ada Example" "User ID") :=
  ⟨(isLoggedIn_heuristic "Not logged in. Run bs login." "").1 (by decide),
   (isLoggedIn_heuristic "Name: Ada Example" "").2.1 (by decide)⟩

theorem buildSnapshot_foldl (st : StatusAll) (n : String) :
    ∀ (projects : List ListProject) (acc : Option ListProject),
      (buildSnapshot projects st).foldl (fun a e => if e.1 = n then some e.2 else a)
        (Option.map (fun q => mkSnapshotEntry (statusLookup st.projects n) q) acc) =
      Option.map (fun q => mkSnapshotEntry (statusLookup st.projects n) q)
        (projects.foldl (fun a q => if q.name = n then some q else a) acc) := by
  intro projects
  induction projects with
  | nil => intro acc; rfl
  | cons p rest ih =>
    intro acc
    show (buildSnapshot rest st).foldl (fun a e => if e.1 = n then some e.2 else a)
        (if p.name = n then some (mkSnapshotEntry (statusLookup st.projects p.name) p)
         else Option.map (fun q => mkSnapshotEntry (statusLookup st.projects n) q) acc) =
      Option.map (fun q => mkSnapshotEntry (statusLookup st.projects n) q)
        (rest.foldl (fun a q => if q.name = n then some q else a)
          (if p.name = n then some p else acc))
    by_cases hp : p.name = n
    · rw [if_pos hp, if_pos hp, hp]
      exact ih (some p)
    · rw [if_neg hp, if_neg hp]
      exact ih acc

theorem snapshotGet_build (projects : List ListProject) (st : StatusAll) (n : String) :
    snapshotGet (buildSnapshot projects st) n =
      Option.map (fun q => mkSnapshotEntry (statusLookup st.projects n) q)
        (lastByName projects n) :=
  buildSnapshot_foldl st n projects none

/-- C6.  The pre-deploy snapshot merges the list query and the status query by project
name (last same-name record winning on either side): a non-empty list-side field wins, an
empty or missing list-side field is filled from the status side; a failed query falls back
to an empty result so the snapshot phase still succeeds with an empty or partial snapshot;
and against an empty snapshot a project later observed live with a non-empty URL is still
reported as a success. -/
theorem snapshot_merge_resilient (p : ListProject) (s0 : Option StatusProject)
    (projects : List ListProject) (st : StatusAll) (n nm u : String)
    (sps : List StatusProject) :
    ((p.status ≠ "" → (mkSnapshotEntry s0 p).status = p.status) ∧
     (p.status = "" → (mkSnapshotEntry s0 p).status = statusOf s0) ∧
     (listUrl p ≠ "" → (mkSnapshotEntry s0 p).url = listUrl p) ∧
     (listUrl p = "" → (mkSnapshotEntry s0 p).url = urlOf s0)) ∧
    (snapshotGet (buildSnapshot projects st) n =
      Option.map (fun q => mkSnapshotEntry (statusLookup st.projects n) q)
        (lastByName projects n)) ∧
    (snapshotPhase none none = [] ∧ snapshotPhase none (some st) = []) ∧
    (u ≠ "" →
      projectEvent [] sps
          { name := nm, status := "live", public_url := some u,
            tunnel_active := true, auto_deploy := none } =
        some (DeployEvent.success nm u)) := by
  refine ⟨⟨?_, ?_, ?_, ?_⟩, snapshotGet_build projects st n, ⟨rfl, rfl⟩, ?_⟩
  · intro h
    simp [mkSnapshotEntry, currentStatus, jsOr, h]
  · intro h
    simp [mkSnapshotEntry, currentStatus, jsOr, h]
  · intro h
    simp [mkSnapshotEntry, currentUrl, jsOr, h]
  · intro h
    simp [mkSnapshotEntry, currentUrl, jsOr, h]
  · intro hu
    simp [projectEvent, successFires, wasNotLive, urlChanged, snapshotGet,
      currentStatus, currentUrl, listUrl, statusOf, jsOr, hu]

/-- C6 witness: with both snapshot queries failed, a fresh project going live is detected. -/
theorem snapshot_merge_resilient_witness :
    projectEvent (snapshotPhase none none) []
        { name := "app", status := "live", public_url := some "https://x.dev",
          tunnel_active := true, auto_deploy := none } =
      some (DeployEvent.success "app" "https://x.dev") := by
  have h := (snapshot_merge_resilient
    { name := "app", status := "live", public_url := some "https://x.dev",
      tunnel_active := true, auto_deploy := none }
    none [] { projects := [] } "" "app" "https://x.dev" []).2.2.2 (by decide)
  exact h

end BuildAndShip
